import Mathlib

/-!
# Verification of the `Navigation` sidebar component

Shallow embedding of `src/app/(main)/_components/navigation.tsx`, a React
component implementing a resizable sidebar: pointer-driven drag-to-resize
(clamped to [240, 480] px), collapse/expand with a 300 ms transition flag,
and responsive switching between desktop and mobile layouts driven by a
`(max-width: 768px)` media query and a pathname observer.

The component's mutable state is embedded as `NavState`; its event handlers
(`handleMouseDown`, `handleMouseMove`, `handleMouseUp`, `resetWidth`,
`collapse`) and its two `useEffect` bodies become pure state transformers.
CSS length values written to element styles are embedded as `CssLen`.
-/

/-- A CSS length value as written by the component to an inline style:
`'Npx'` becomes `px N`, `'100%'` becomes `pct 100`, `'0'` (a zero length)
becomes `px 0`, and `'calc(100% - Npx)'` becomes `calc100SubPx N`. -/
inductive CssLen where
  | px : Int → CssLen
  | pct : Nat → CssLen
  | calc100SubPx : Int → CssLen
deriving DecidableEq, Repr

/-- Resolve a `CssLen` to pixels against a containing width of `V` pixels:
percentages resolve relative to `V` and `calc(100% - Npx)` resolves to
`V - N`. -/
def CssLen.toPx (V : Int) : CssLen → Int
  | CssLen.px n => n
  | CssLen.pct p => V * (p : Int) / 100
  | CssLen.calc100SubPx n => V - n

/-- The inline style of the `aside` element behind `sidebarRef`: the
component only ever writes its `width`. -/
structure SidebarStyle where
  width : CssLen
deriving DecidableEq, Repr

/-- The inline style of the `div` element behind `navbarRef`: the component
writes its `left` and `width` properties. -/
structure NavbarStyle where
  left : CssLen
  width : CssLen
deriving DecidableEq, Repr

/-- The component state:
* `viewport` — the viewport width in pixels, read by the
  `useMediaQuery('(max-width: 768px)')` hook;
* `isResizing` — `isResizingRef.current`;
* `isResetting`, `isCollapsed` — the two `useState` booleans;
* `sidebar`, `navbar` — the elements behind `sidebarRef` / `navbarRef`
  (`none` models a `null` ref);
* `moveListener`, `upListener` — whether the global `mousemove` /
  `mouseup` document listeners are currently attached;
* `pendingResets` — delays (in ms) of the scheduled
  `setTimeout(() => setIsResetting(false), _)` callbacks not yet fired. -/
structure NavState where
  viewport : Nat
  isResizing : Bool
  isResetting : Bool
  isCollapsed : Bool
  sidebar : Option SidebarStyle
  navbar : Option NavbarStyle
  moveListener : Bool
  upListener : Bool
  pendingResets : List Nat
deriving DecidableEq, Repr

/-- `useMediaQuery('(max-width: 768px)')`: the breakpoint reports mobile
exactly when the viewport width is at most 768 px. -/
def NavState.isMobile (s : NavState) : Bool :=
  decide (s.viewport ≤ 768)

/-- `handleMouseDown`: sets `isResizingRef.current = true` and attaches the
global `mousemove` and `mouseup` document listeners. -/
def handleMouseDown (s : NavState) : NavState :=
  { s with isResizing := true, moveListener := true, upListener := true }

/-- The clamping performed by `handleMouseMove` on `event.clientX`:
`let newWidth = event.clientX; if (newWidth < 240) newWidth = 240;
if (newWidth > 480) newWidth = 480;`. -/
def clampWidth (clientX : Int) : Int :=
  let newWidth := clientX
  let newWidth := if newWidth < 240 then 240 else newWidth
  let newWidth := if newWidth > 480 then 480 else newWidth
  newWidth

/-- `handleMouseMove`: returns immediately unless `isResizingRef.current`;
otherwise clamps `event.clientX` and, when both refs are non-null, writes
the sidebar width to `newWidth` px, the navbar `left` to `newWidth` px and
the navbar `width` to `calc(100% - newWidth px)`. -/
def handleMouseMove (clientX : Int) (s : NavState) : NavState :=
  if !s.isResizing then s
  else
    let newWidth := clampWidth clientX
    match s.sidebar, s.navbar with
    | some _, some _ =>
        { s with
          sidebar := some ⟨CssLen.px newWidth⟩,
          navbar := some ⟨CssLen.px newWidth, CssLen.calc100SubPx newWidth⟩ }
    | _, _ => s

/-- `handleMouseUp`: clears `isResizingRef.current` and removes both global
document listeners. -/
def handleMouseUp (s : NavState) : NavState :=
  { s with isResizing := false, moveListener := false, upListener := false }

/-- `resetWidth`: when both refs are non-null, sets `isCollapsed` to false,
`isResetting` to true, the sidebar width to `'100%'` when mobile and
`'240px'` otherwise, the navbar width to `'0'` when mobile and
`'calc(100% - 240px)'` otherwise, the navbar `left` to `'100%'` when mobile
and `'240px'` otherwise, and schedules `setIsResetting(false)` after
300 ms. When either ref is null it does nothing. -/
def resetWidth (isMobile : Bool) (s : NavState) : NavState :=
  match s.sidebar, s.navbar with
  | some _, some _ =>
      { s with
        isCollapsed := false,
        isResetting := true,
        sidebar := some ⟨if isMobile then CssLen.pct 100 else CssLen.px 240⟩,
        navbar := some
          ⟨if isMobile then CssLen.pct 100 else CssLen.px 240,
           if isMobile then CssLen.px 0 else CssLen.calc100SubPx 240⟩,
        pendingResets := s.pendingResets ++ [300] }
  | _, _ => s

/-- `collapse`: when both refs are non-null, sets `isCollapsed` to true,
`isResetting` to true, the sidebar width to `'0'`, the navbar width to
`'100%'`, the navbar `left` to `'0'`, and schedules
`setIsResetting(false)` after 300 ms. When either ref is null it does
nothing. -/
def collapse (s : NavState) : NavState :=
  match s.sidebar, s.navbar with
  | some _, some _ =>
      { s with
        isCollapsed := true,
        isResetting := true,
        sidebar := some ⟨CssLen.px 0⟩,
        navbar := some ⟨CssLen.px 0, CssLen.pct 100⟩,
        pendingResets := s.pendingResets ++ [300] }
  | _, _ => s

/-- Firing of one scheduled `setTimeout(() => setIsResetting(false), 300)`
callback: removes it from the pending list and clears `isResetting`. -/
def timerFire (s : NavState) : NavState :=
  match s.pendingResets with
  | [] => s
  | _ :: rest => { s with isResetting := false, pendingResets := rest }

/-- The body of the first `useEffect` (dependency `[isMobile]`):
`if (isMobile) collapse(); else resetWidth();`. -/
def effectOnMobileChange (isMobile : Bool) (s : NavState) : NavState :=
  if isMobile then collapse s else resetWidth isMobile s

/-- The body of the second `useEffect` (dependencies `[pathname, isMobile]`):
`if (isMobile) collapse();`. -/
def effectOnPathChange (isMobile : Bool) (s : NavState) : NavState :=
  if isMobile then collapse s else s

/-- The external events the component reacts to. `mouseDown` is the
`onMouseDown` of the resize handle; `mouseMove` and `mouseUp` are the
document-level events seen by the attached listeners; `clickCollapse` is a
click on the chevron (`onClick={collapse}`); `clickResetWidth` is a click
on the resize handle or the menu icon (`onClick={resetWidth}`);
`viewportChange v` is a viewport resize to `v` px (re-running the effects
when the media-query result flips); `pathChange` is a route change
(re-running the second effect); `mount` is the initial run of both
effects; `timeout` is the firing of one scheduled transition-flag reset. -/
inductive Event where
  | mouseDown
  | mouseMove (clientX : Int)
  | mouseUp
  | clickCollapse
  | clickResetWidth
  | viewportChange (v : Nat)
  | pathChange
  | mount
  | timeout
deriving DecidableEq, Repr

/-- One step of the component's event loop. The document listeners deliver
`mousemove` / `mouseup` to the handlers (which themselves ignore moves when
not resizing); the `useEffect` with `[isMobile]` and the one with
`[pathname, isMobile]` both re-run, in declaration order, when the
media-query result flips, the second alone on a path change, and both on
mount. -/
def step (s : NavState) : Event → NavState
  | Event.mouseDown => handleMouseDown s
  | Event.mouseMove x => handleMouseMove x s
  | Event.mouseUp => handleMouseUp s
  | Event.clickCollapse => collapse s
  | Event.clickResetWidth => resetWidth s.isMobile s
  | Event.viewportChange v =>
      let s' := { s with viewport := v }
      if s'.isMobile = s.isMobile then s'
      else effectOnPathChange s'.isMobile (effectOnMobileChange s'.isMobile s')
  | Event.pathChange => effectOnPathChange s.isMobile s
  | Event.mount => effectOnPathChange s.isMobile (effectOnMobileChange s.isMobile s)
  | Event.timeout => timerFire s

/-- Run a sequence of events from a state. -/
def run (evs : List Event) (s : NavState) : NavState :=
  evs.foldl step s

/-- The component's state right after its first render at viewport width
`v`: refs are attached, no drag is active, no listener is attached,
`isCollapsed` is initialised to `isMobile` (`useState(isMobile)`), and the
elements carry the rendered classes — sidebar `w-60` (240 px; `w-0` when
mobile), navbar `left-60 w-[calc(100%-240px)]` (`left-0 w-full` when
mobile). -/
def init (v : Nat) : NavState :=
  let mobile := decide (v ≤ 768)
  { viewport := v
    isResizing := false
    isResetting := false
    isCollapsed := mobile
    sidebar := some ⟨if mobile then CssLen.px 0 else CssLen.px 240⟩
    navbar := some
      ⟨if mobile then CssLen.px 0 else CssLen.px 240,
       if mobile then CssLen.pct 100 else CssLen.calc100SubPx 240⟩
    moveListener := false
    upListener := false
    pendingResets := [] }

/-- The kinds of outward calls the component can make to collaborators
outside the rendering surface: the route/path observers
(`useRouter` / `useParams` / `usePathname`), the responsive-layout query
(`useMediaQuery`), and a data mutation on the external backend service
(`useMutation(api...)`). -/
inductive ExtCall where
  | routeObserver
  | mediaQuery
  | dataMutation
deriving DecidableEq, Repr

/-- The outward calls the component body actually performs, in source
order: `useRouter()`, `useParams()`, `usePathname()`,
`useMediaQuery('(max-width: 768px)')`. The `useMutation` / `api` imports
are never invoked anywhere in the component, so no `dataMutation` call
occurs. -/
def navigationHookCalls : List ExtCall :=
  [ExtCall.routeObserver, ExtCall.routeObserver, ExtCall.routeObserver,
   ExtCall.mediaQuery]

/-- A desktop-viewport state (1000 px) in the middle of a drag gesture. -/
def dragState : NavState :=
  { init 1000 with isResizing := true }

/-- A state whose navbar ref is null (e.g. before the element mounts). -/
def noNavbarState : NavState :=
  { init 1000 with navbar := none }

/-- The sidebar widths the component can ever write (or render): `0` px, a
drag-clamped value in [240, 480] px, or — only while the viewport is in the
mobile range (at most 768 px) — `100%`. -/
def sidebarWidthOk (V : Nat) : CssLen → Prop
  | CssLen.px n => n = 0 ∨ (240 ≤ n ∧ n ≤ 480)
  | CssLen.pct p => p = 100 ∧ V ≤ 768
  | CssLen.calc100SubPx _ => False

/-- Invariant: both elements stay mounted and the sidebar width is one of
the values of `sidebarWidthOk`. -/
def widthInv (s : NavState) : Prop :=
  s.sidebar.isSome = true ∧ s.navbar.isSome = true ∧
    ∀ sb : SidebarStyle, s.sidebar = some sb → sidebarWidthOk s.viewport sb.width

/-- `t` agrees with `s` on the drag-related fields: the resizing flag and
the two global-listener flags. -/
def dragFieldsEq (s t : NavState) : Prop :=
  t.isResizing = s.isResizing ∧ t.moveListener = s.moveListener
  ∧ t.upListener = s.upListener

/-- C1: while a drag is in progress (`isResizing` true) and both elements
exist, `handleMouseMove` sets the sidebar width to the clamp of the
event's `clientX` into [240, 480]: below 240 yields 240, above 480 yields
480, and any value in between yields exactly `clientX`. -/
theorem mousemove_clamps_sidebar_width (s : NavState) (x : Int)
    (hr : s.isResizing = true) (sb : SidebarStyle) (nb : NavbarStyle)
    (hs : s.sidebar = some sb) (hn : s.navbar = some nb) :
    (handleMouseMove x s).sidebar = some ⟨CssLen.px (clampWidth x)⟩
    ∧ (x < 240 → clampWidth x = 240)
    ∧ (480 < x → clampWidth x = 480)
    ∧ (240 ≤ x ∧ x ≤ 480 → clampWidth x = x) := by
  refine ⟨?_, ?_, ?_, ?_⟩
  · simp [handleMouseMove, hr, hs, hn]
  · intro h; simp only [clampWidth]; split_ifs <;> omega
  · intro h; simp only [clampWidth]; split_ifs <;> omega
  · intro h; simp only [clampWidth]; split_ifs <;> omega

/-- Witness for C1: at the drag state with `clientX = 100`, the clamp
applies. -/
theorem mousemove_clamps_sidebar_width_witness :
    (handleMouseMove 100 dragState).sidebar = some ⟨CssLen.px (clampWidth 100)⟩
    ∧ ((100 : Int) < 240 → clampWidth 100 = 240)
    ∧ ((480 : Int) < 100 → clampWidth 100 = 480)
    ∧ ((240 : Int) ≤ 100 ∧ (100 : Int) ≤ 480 → clampWidth 100 = 100) :=
  mousemove_clamps_sidebar_width dragState 100 rfl ⟨CssLen.px 240⟩
    ⟨CssLen.px 240, CssLen.calc100SubPx 240⟩ rfl rfl

/-- C2: after a mousemove processed during a drag with both elements
present, a single clamped scalar `w` is mirrored into both regions: the
sidebar width is `w` px, the navbar `left` is `w` px, and the navbar width
is `calc(100% - w px)`, which resolves to 100% minus `w` against any
containing width. -/
theorem mousemove_mirrors_navbar (s : NavState) (x : Int)
    (hr : s.isResizing = true) (sb : SidebarStyle) (nb : NavbarStyle)
    (hs : s.sidebar = some sb) (hn : s.navbar = some nb) :
    ∃ w : Int,
      (handleMouseMove x s).sidebar = some ⟨CssLen.px w⟩
      ∧ (handleMouseMove x s).navbar = some ⟨CssLen.px w, CssLen.calc100SubPx w⟩
      ∧ ∀ total : Int,
          (CssLen.calc100SubPx w).toPx total = (CssLen.pct 100).toPx total - w := by
  refine ⟨clampWidth x, ?_, ?_, ?_⟩
  · simp [handleMouseMove, hr, hs, hn]
  · simp [handleMouseMove, hr, hs, hn]
  · intro total
    have h100 : total * (100 : Int) / 100 = total :=
      Int.mul_ediv_cancel total (by norm_num)
    simp [CssLen.toPx, h100]

/-- Witness for C2: at the drag state with `clientX = 300` the mirrored
scalar exists. -/
theorem mousemove_mirrors_navbar_witness :
    ∃ w : Int,
      (handleMouseMove 300 dragState).sidebar = some ⟨CssLen.px w⟩
      ∧ (handleMouseMove 300 dragState).navbar
          = some ⟨CssLen.px w, CssLen.calc100SubPx w⟩
      ∧ ∀ total : Int,
          (CssLen.calc100SubPx w).toPx total = (CssLen.pct 100).toPx total - w :=
  mousemove_mirrors_navbar dragState 300 rfl ⟨CssLen.px 240⟩
    ⟨CssLen.px 240, CssLen.calc100SubPx 240⟩ rfl rfl

/-- C9: a mousemove received while `isResizing` is false leaves the state
entirely unchanged — in particular the sidebar width, navbar left offset
and navbar width. -/
theorem mousemove_noop_when_not_resizing (s : NavState) (x : Int)
    (h : s.isResizing = false) : handleMouseMove x s = s := by
  simp [handleMouseMove, h]

/-- Witness for C9: at the freshly initialised desktop state, a mousemove
at `clientX = 999` changes nothing. -/
theorem mousemove_noop_when_not_resizing_witness :
    handleMouseMove 999 (init 1000) = init 1000 :=
  mousemove_noop_when_not_resizing (init 1000) 999 rfl

/-- C10: when the sidebar ref or the navbar ref is null, `collapse` and
`resetWidth` are complete no-ops: no flag, no element style and no pending
timer changes. -/
theorem collapse_resetWidth_noop_when_ref_null (s : NavState) (m : Bool)
    (h : s.sidebar = none ∨ s.navbar = none) :
    collapse s = s ∧ resetWidth m s = s := by
  rcases h with h | h <;> cases hs : s.sidebar <;> cases hn : s.navbar <;>
    simp_all [collapse, resetWidth]

/-- Witness for C10: at a state with a null navbar ref, `collapse` and
`resetWidth` change nothing. -/
theorem collapse_resetWidth_noop_when_ref_null_witness :
    collapse noNavbarState = noNavbarState
    ∧ resetWidth true noNavbarState = noNavbarState :=
  collapse_resetWidth_noop_when_ref_null noNavbarState true (Or.inr rfl)

/-- `handleMouseMove` either leaves the state unchanged or performs the
full clamped write to both elements. -/
lemma handleMouseMove_cases (x : Int) (s : NavState) :
    handleMouseMove x s = s ∨
    handleMouseMove x s =
      { s with
        sidebar := some ⟨CssLen.px (clampWidth x)⟩,
        navbar := some ⟨CssLen.px (clampWidth x), CssLen.calc100SubPx (clampWidth x)⟩ } := by
  simp only [handleMouseMove]
  split
  · exact Or.inl rfl
  · split
    · exact Or.inr rfl
    · exact Or.inl rfl

/-- `collapse` either leaves the state unchanged (a null ref) or performs
its full write. -/
lemma collapse_cases (s : NavState) :
    collapse s = s ∨
    collapse s =
      { s with
        isCollapsed := true, isResetting := true,
        sidebar := some ⟨CssLen.px 0⟩,
        navbar := some ⟨CssLen.px 0, CssLen.pct 100⟩,
        pendingResets := s.pendingResets ++ [300] } := by
  unfold collapse
  split
  · exact Or.inr rfl
  · exact Or.inl rfl

/-- `resetWidth` either leaves the state unchanged (a null ref) or performs
its full write. -/
lemma resetWidth_cases (m : Bool) (s : NavState) :
    resetWidth m s = s ∨
    resetWidth m s =
      { s with
        isCollapsed := false, isResetting := true,
        sidebar := some ⟨if m then CssLen.pct 100 else CssLen.px 240⟩,
        navbar := some
          ⟨if m then CssLen.pct 100 else CssLen.px 240,
           if m then CssLen.px 0 else CssLen.calc100SubPx 240⟩,
        pendingResets := s.pendingResets ++ [300] } := by
  unfold resetWidth
  split
  · exact Or.inr rfl
  · exact Or.inl rfl

/-- The timer callback either finds nothing pending or consumes the head
of the pending list and clears the flag. -/
lemma timerFire_cases (s : NavState) :
    timerFire s = s ∨
    ∃ d rest, s.pendingResets = d :: rest ∧
      timerFire s = { s with isResetting := false, pendingResets := rest } := by
  unfold timerFire
  split
  · exact Or.inl rfl
  · rename_i d rest h
    exact Or.inr ⟨d, rest, h, rfl⟩

/-- When both refs are non-null, `collapse` performs exactly its write. -/
lemma collapse_of_present (s : NavState)
    (hs : s.sidebar.isSome = true) (hn : s.navbar.isSome = true) :
    collapse s =
      { s with
        isCollapsed := true, isResetting := true,
        sidebar := some ⟨CssLen.px 0⟩,
        navbar := some ⟨CssLen.px 0, CssLen.pct 100⟩,
        pendingResets := s.pendingResets ++ [300] } := by
  unfold collapse
  cases hss : s.sidebar <;> cases hnn : s.navbar <;> simp_all

/-- When both refs are non-null, `resetWidth` performs exactly its write. -/
lemma resetWidth_of_present (m : Bool) (s : NavState)
    (hs : s.sidebar.isSome = true) (hn : s.navbar.isSome = true) :
    resetWidth m s =
      { s with
        isCollapsed := false, isResetting := true,
        sidebar := some ⟨if m then CssLen.pct 100 else CssLen.px 240⟩,
        navbar := some
          ⟨if m then CssLen.pct 100 else CssLen.px 240,
           if m then CssLen.px 0 else CssLen.calc100SubPx 240⟩,
        pendingResets := s.pendingResets ++ [300] } := by
  unfold resetWidth
  cases hss : s.sidebar <;> cases hnn : s.navbar <;> simp_all

/-- The drag clamp always lands in [240, 480]. -/
lemma clampWidth_bounds (x : Int) : 240 ≤ clampWidth x ∧ clampWidth x ≤ 480 := by
  simp only [clampWidth]
  split_ifs <;> omega

/-- C3 counterexample: at a mobile viewport (500 px) with both elements
present, collapsing and then calling `resetWidth` (whose `isMobile` closure
variable is then true) sets the sidebar width to `100%`, not to 240 px, so
the claim as stated fails. -/
theorem collapse_then_reset_mobile_counterexample :
    (resetWidth (init 500).isMobile (collapse (init 500))).sidebar
      = some ⟨CssLen.pct 100⟩
    ∧ (resetWidth (init 500).isMobile (collapse (init 500))).sidebar
      ≠ some ⟨CssLen.px 240⟩ := by
  decide

/-- C3 (amended): with both elements present, `collapse` sets the sidebar
width to 0 and the collapsed flag to true; a subsequent `resetWidth`
clears the collapsed flag and restores the sidebar width to 240 px when
the breakpoint reports desktop, while on mobile it sets `100%` instead. -/
theorem collapse_zero_then_reset_restores (s : NavState)
    (sb : SidebarStyle) (nb : NavbarStyle)
    (hs : s.sidebar = some sb) (hn : s.navbar = some nb) :
    (collapse s).sidebar = some ⟨CssLen.px 0⟩
    ∧ (collapse s).isCollapsed = true
    ∧ (resetWidth false (collapse s)).sidebar = some ⟨CssLen.px 240⟩
    ∧ (resetWidth false (collapse s)).isCollapsed = false
    ∧ (resetWidth true (collapse s)).sidebar = some ⟨CssLen.pct 100⟩ := by
  have hc : collapse s =
      { s with
        isCollapsed := true, isResetting := true,
        sidebar := some ⟨CssLen.px 0⟩,
        navbar := some ⟨CssLen.px 0, CssLen.pct 100⟩,
        pendingResets := s.pendingResets ++ [300] } :=
    collapse_of_present s (by simp [hs]) (by simp [hn])
  rw [hc]
  refine ⟨rfl, rfl, ?_, ?_, ?_⟩ <;> simp [resetWidth]

/-- Witness for C3 (amended): concrete desktop state at viewport 1000. -/
theorem collapse_zero_then_reset_restores_witness :
    (collapse (init 1000)).sidebar = some ⟨CssLen.px 0⟩
    ∧ (collapse (init 1000)).isCollapsed = true
    ∧ (resetWidth false (collapse (init 1000))).sidebar = some ⟨CssLen.px 240⟩
    ∧ (resetWidth false (collapse (init 1000))).isCollapsed = false
    ∧ (resetWidth true (collapse (init 1000))).sidebar = some ⟨CssLen.pct 100⟩ :=
  collapse_zero_then_reset_restores (init 1000) ⟨CssLen.px 240⟩
    ⟨CssLen.px 240, CssLen.calc100SubPx 240⟩ rfl rfl

/-- C6: with both elements present, `collapse` and `resetWidth` each set
`isResetting` to true and append exactly one scheduled reset with the same
fixed 300 ms delay; the mouse handlers neither toggle the flag nor touch
the schedule, and only the timer callback sets the flag back to false. -/
theorem transition_flag_timer (s : NavState) (m : Bool)
    (sb : SidebarStyle) (nb : NavbarStyle)
    (hs : s.sidebar = some sb) (hn : s.navbar = some nb) :
    ((collapse s).isResetting = true
      ∧ (collapse s).pendingResets = s.pendingResets ++ [300])
    ∧ ((resetWidth m s).isResetting = true
      ∧ (resetWidth m s).pendingResets = s.pendingResets ++ [300])
    ∧ (∀ x : Int, (handleMouseMove x s).isResetting = s.isResetting
        ∧ (handleMouseMove x s).pendingResets = s.pendingResets)
    ∧ ((handleMouseDown s).isResetting = s.isResetting
      ∧ (handleMouseDown s).pendingResets = s.pendingResets)
    ∧ ((handleMouseUp s).isResetting = s.isResetting
      ∧ (handleMouseUp s).pendingResets = s.pendingResets)
    ∧ ∀ d rest, s.pendingResets = d :: rest →
        (timerFire s).isResetting = false ∧ (timerFire s).pendingResets = rest := by
  refine ⟨?_, ?_, ?_, ⟨rfl, rfl⟩, ⟨rfl, rfl⟩, ?_⟩
  · rw [collapse_of_present s (by simp [hs]) (by simp [hn])]
    exact ⟨rfl, rfl⟩
  · rw [resetWidth_of_present m s (by simp [hs]) (by simp [hn])]
    exact ⟨rfl, rfl⟩
  · intro x
    rcases handleMouseMove_cases x s with h | h <;> rw [h] <;> exact ⟨rfl, rfl⟩
  · intro d rest h
    unfold timerFire
    rw [h]
    exact ⟨rfl, rfl⟩

/-- Witness for C6: concrete desktop state with one pending reset. -/
theorem transition_flag_timer_witness :
    (((collapse (collapse (init 1000))).isResetting = true
      ∧ (collapse (collapse (init 1000))).pendingResets
          = (collapse (init 1000)).pendingResets ++ [300])
    ∧ ((resetWidth true (collapse (init 1000))).isResetting = true
      ∧ (resetWidth true (collapse (init 1000))).pendingResets
          = (collapse (init 1000)).pendingResets ++ [300])
    ∧ (∀ x : Int,
        (handleMouseMove x (collapse (init 1000))).isResetting
            = (collapse (init 1000)).isResetting
        ∧ (handleMouseMove x (collapse (init 1000))).pendingResets
            = (collapse (init 1000)).pendingResets)
    ∧ ((handleMouseDown (collapse (init 1000))).isResetting
          = (collapse (init 1000)).isResetting
      ∧ (handleMouseDown (collapse (init 1000))).pendingResets
          = (collapse (init 1000)).pendingResets)
    ∧ ((handleMouseUp (collapse (init 1000))).isResetting
          = (collapse (init 1000)).isResetting
      ∧ (handleMouseUp (collapse (init 1000))).pendingResets
          = (collapse (init 1000)).pendingResets)
    ∧ ∀ d rest, (collapse (init 1000)).pendingResets = d :: rest →
        (timerFire (collapse (init 1000))).isResetting = false
        ∧ (timerFire (collapse (init 1000))).pendingResets = rest) :=
  transition_flag_timer (collapse (init 1000)) true ⟨CssLen.px 0⟩
    ⟨CssLen.px 0, CssLen.pct 100⟩ rfl rfl

/-- C7: with both elements present, the `[isMobile]` effect collapses the
sidebar (width 0, collapsed flag true) when the breakpoint reports mobile
and calls `resetWidth` (restoring 240 px, collapsed flag false) when it
reports desktop; the `[pathname, isMobile]` effect collapses the sidebar
on every path change while mobile and does nothing while desktop. -/
theorem responsive_effects (s : NavState)
    (sb : SidebarStyle) (nb : NavbarStyle)
    (hs : s.sidebar = some sb) (hn : s.navbar = some nb) :
    ((effectOnMobileChange true s).sidebar = some ⟨CssLen.px 0⟩
      ∧ (effectOnMobileChange true s).isCollapsed = true)
    ∧ (effectOnMobileChange false s = resetWidth false s
      ∧ (resetWidth false s).sidebar = some ⟨CssLen.px 240⟩
      ∧ (resetWidth false s).isCollapsed = false)
    ∧ (effectOnPathChange true s = collapse s
      ∧ (effectOnPathChange true s).sidebar = some ⟨CssLen.px 0⟩
      ∧ (effectOnPathChange true s).isCollapsed = true)
    ∧ effectOnPathChange false s = s := by
  have hc : collapse s =
      { s with
        isCollapsed := true, isResetting := true,
        sidebar := some ⟨CssLen.px 0⟩,
        navbar := some ⟨CssLen.px 0, CssLen.pct 100⟩,
        pendingResets := s.pendingResets ++ [300] } :=
    collapse_of_present s (by simp [hs]) (by simp [hn])
  have hr : resetWidth false s =
      { s with
        isCollapsed := false, isResetting := true,
        sidebar := some ⟨CssLen.px 240⟩,
        navbar := some ⟨CssLen.px 240, CssLen.calc100SubPx 240⟩,
        pendingResets := s.pendingResets ++ [300] } := by
    have := resetWidth_of_present false s (by simp [hs]) (by simp [hn])
    simpa using this
  refine ⟨?_, ⟨rfl, ?_, ?_⟩, ⟨rfl, ?_, ?_⟩, rfl⟩
  · constructor <;> simp [effectOnMobileChange, hc]
  · rw [hr]
  · rw [hr]
  · simp [effectOnPathChange, hc]
  · simp [effectOnPathChange, hc]

/-- Witness for C7: concrete desktop state at viewport 1000. -/
theorem responsive_effects_witness :
    (((effectOnMobileChange true (init 1000)).sidebar = some ⟨CssLen.px 0⟩
      ∧ (effectOnMobileChange true (init 1000)).isCollapsed = true)
    ∧ (effectOnMobileChange false (init 1000) = resetWidth false (init 1000)
      ∧ (resetWidth false (init 1000)).sidebar = some ⟨CssLen.px 240⟩
      ∧ (resetWidth false (init 1000)).isCollapsed = false)
    ∧ (effectOnPathChange true (init 1000) = collapse (init 1000)
      ∧ (effectOnPathChange true (init 1000)).sidebar = some ⟨CssLen.px 0⟩
      ∧ (effectOnPathChange true (init 1000)).isCollapsed = true)
    ∧ effectOnPathChange false (init 1000) = init 1000) :=
  responsive_effects (init 1000) ⟨CssLen.px 240⟩
    ⟨CssLen.px 240, CssLen.calc100SubPx 240⟩ rfl rfl

/-- C8 counterexample: no execution of the component performs the
data-mutation call — the `useMutation` import is never invoked, so
`dataMutation` is absent from the component's outward calls. -/
theorem no_data_mutation_call : ExtCall.dataMutation ∉ navigationHookCalls := by
  decide

/-- C8 (amended): the component's only outward calls are the route/path
observers and the responsive-layout query; the data-mutation API is
imported but never invoked, so no execution performs a data-mutation call
and no other external effect occurs. -/
theorem outward_calls_only_observers (c : ExtCall)
    (hc : c ∈ navigationHookCalls) :
    (c = ExtCall.routeObserver ∨ c = ExtCall.mediaQuery)
    ∧ ExtCall.dataMutation ∉ navigationHookCalls := by
  refine ⟨?_, by decide⟩
  fin_cases hc <;> simp

/-- Witness for C8 (amended): the media-query call is in the list. -/
theorem outward_calls_only_observers_witness :
    (ExtCall.mediaQuery = ExtCall.routeObserver
      ∨ ExtCall.mediaQuery = ExtCall.mediaQuery)
    ∧ ExtCall.dataMutation ∉ navigationHookCalls :=
  outward_calls_only_observers ExtCall.mediaQuery (by decide)

/-- `dragFieldsEq` is reflexive. -/
lemma dragFieldsEq_refl (s : NavState) : dragFieldsEq s s :=
  ⟨rfl, rfl, rfl⟩

/-- `dragFieldsEq` composes. -/
lemma dragFieldsEq_trans {s t u : NavState}
    (h1 : dragFieldsEq s t) (h2 : dragFieldsEq t u) : dragFieldsEq s u :=
  ⟨h2.1.trans h1.1, h2.2.1.trans h1.2.1, h2.2.2.trans h1.2.2⟩

/-- `handleMouseMove` never touches the drag fields. -/
lemma dragFieldsEq_mouseMove (x : Int) (s : NavState) :
    dragFieldsEq s (handleMouseMove x s) := by
  rcases handleMouseMove_cases x s with h | h <;> rw [h] <;> exact ⟨rfl, rfl, rfl⟩

/-- `collapse` never touches the drag fields. -/
lemma dragFieldsEq_collapse (s : NavState) : dragFieldsEq s (collapse s) := by
  rcases collapse_cases s with h | h <;> rw [h] <;> exact ⟨rfl, rfl, rfl⟩

/-- `resetWidth` never touches the drag fields. -/
lemma dragFieldsEq_resetWidth (m : Bool) (s : NavState) :
    dragFieldsEq s (resetWidth m s) := by
  rcases resetWidth_cases m s with h | h <;> rw [h] <;> exact ⟨rfl, rfl, rfl⟩

/-- The timer callback never touches the drag fields. -/
lemma dragFieldsEq_timerFire (s : NavState) : dragFieldsEq s (timerFire s) := by
  rcases timerFire_cases s with h | ⟨d, rest, _, h⟩ <;> rw [h] <;>
    exact ⟨rfl, rfl, rfl⟩

/-- The `[isMobile]` effect never touches the drag fields. -/
lemma dragFieldsEq_effectOnMobileChange (m : Bool) (s : NavState) :
    dragFieldsEq s (effectOnMobileChange m s) := by
  cases m
  · simpa [effectOnMobileChange] using dragFieldsEq_resetWidth false s
  · simpa [effectOnMobileChange] using dragFieldsEq_collapse s

/-- The `[pathname, isMobile]` effect never touches the drag fields. -/
lemma dragFieldsEq_effectOnPathChange (m : Bool) (s : NavState) :
    dragFieldsEq s (effectOnPathChange m s) := by
  cases m
  · simpa [effectOnPathChange] using dragFieldsEq_refl s
  · simpa [effectOnPathChange] using dragFieldsEq_collapse s

/-- Transfer of the listeners-track-resizing property along `dragFieldsEq`. -/
lemma listeners_track_of_dragFieldsEq {s t : NavState} (h : dragFieldsEq s t)
    (h1 : s.moveListener = s.isResizing) (h2 : s.upListener = s.isResizing) :
    t.moveListener = t.isResizing ∧ t.upListener = t.isResizing := by
  obtain ⟨ha, hb, hc⟩ := h
  exact ⟨by rw [hb, ha, h1], by rw [hc, ha, h2]⟩

/-- Every event preserves "each global listener is attached iff a drag is
in progress". -/
lemma listeners_track_step (s : NavState) (e : Event)
    (h1 : s.moveListener = s.isResizing) (h2 : s.upListener = s.isResizing) :
    (step s e).moveListener = (step s e).isResizing
    ∧ (step s e).upListener = (step s e).isResizing := by
  cases e with
  | mouseDown => exact ⟨rfl, rfl⟩
  | mouseUp => exact ⟨rfl, rfl⟩
  | mouseMove x =>
      exact listeners_track_of_dragFieldsEq (dragFieldsEq_mouseMove x s) h1 h2
  | clickCollapse =>
      exact listeners_track_of_dragFieldsEq (dragFieldsEq_collapse s) h1 h2
  | clickResetWidth =>
      exact listeners_track_of_dragFieldsEq (dragFieldsEq_resetWidth s.isMobile s) h1 h2
  | pathChange =>
      exact listeners_track_of_dragFieldsEq
        (dragFieldsEq_effectOnPathChange s.isMobile s) h1 h2
  | mount =>
      exact listeners_track_of_dragFieldsEq
        (dragFieldsEq_trans (dragFieldsEq_effectOnMobileChange s.isMobile s)
          (dragFieldsEq_effectOnPathChange s.isMobile (effectOnMobileChange s.isMobile s)))
        h1 h2
  | timeout =>
      exact listeners_track_of_dragFieldsEq (dragFieldsEq_timerFire s) h1 h2
  | viewportChange v =>
      simp only [step]
      split
      · exact ⟨h1, h2⟩
      · exact listeners_track_of_dragFieldsEq
          (dragFieldsEq_trans
            (dragFieldsEq_trans (dragFieldsEq_refl { s with viewport := v })
              (dragFieldsEq_effectOnMobileChange _ { s with viewport := v }))
            (dragFieldsEq_effectOnPathChange _
              (effectOnMobileChange _ { s with viewport := v })))
          h1 h2

/-- The listeners-track-resizing property propagates along any run. -/
lemma listeners_track_run (evs : List Event) :
    ∀ s : NavState, s.moveListener = s.isResizing → s.upListener = s.isResizing →
      (run evs s).moveListener = (run evs s).isResizing
      ∧ (run evs s).upListener = (run evs s).isResizing := by
  induction evs with
  | nil => exact fun s h1 h2 => ⟨h1, h2⟩
  | cons e rest ih =>
      intro s h1 h2
      have h := listeners_track_step s e h1 h2
      simpa [run, List.foldl] using ih (step s e) h.1 h.2

/-- C4: `handleMouseDown` attaches both global listeners and sets the
resizing flag; `handleMouseUp` removes them and clears the flag; and in
every state reachable from the initial one, each global listener is
attached exactly when a drag is in progress — in particular, outside a
drag no global listener remains attached. -/
theorem drag_listener_discipline (s : NavState) :
    ((handleMouseDown s).isResizing = true
      ∧ (handleMouseDown s).moveListener = true
      ∧ (handleMouseDown s).upListener = true)
    ∧ ((handleMouseUp s).isResizing = false
      ∧ (handleMouseUp s).moveListener = false
      ∧ (handleMouseUp s).upListener = false)
    ∧ ∀ (v : Nat) (evs : List Event),
        (run evs (init v)).moveListener = (run evs (init v)).isResizing
        ∧ (run evs (init v)).upListener = (run evs (init v)).isResizing := by
  refine ⟨⟨rfl, rfl, rfl⟩, ⟨rfl, rfl, rfl⟩, ?_⟩
  intro v evs
  exact listeners_track_run evs (init v) rfl rfl

/-- `collapse` reestablishes the width invariant from presence alone. -/
lemma widthInv_collapse (s : NavState)
    (hs : s.sidebar.isSome = true) (hn : s.navbar.isSome = true) :
    widthInv (collapse s) := by
  rw [collapse_of_present s hs hn]
  refine ⟨rfl, rfl, fun sb hsb => ?_⟩
  injection hsb with h'
  subst h'
  simp [sidebarWidthOk]

/-- `resetWidth` reestablishes the width invariant from presence, provided
it is called with `isMobile = true` only while the viewport is mobile. -/
lemma widthInv_resetWidth (m : Bool) (s : NavState)
    (hs : s.sidebar.isSome = true) (hn : s.navbar.isSome = true)
    (hm : m = true → s.viewport ≤ 768) :
    widthInv (resetWidth m s) := by
  rw [resetWidth_of_present m s hs hn]
  refine ⟨rfl, rfl, fun sb hsb => ?_⟩
  injection hsb with h'
  subst h'
  cases m with
  | false => simp [sidebarWidthOk]
  | true =>
      simp [sidebarWidthOk]
      exact hm rfl

/-- `handleMouseMove` preserves the width invariant. -/
lemma widthInv_mouseMove (x : Int) (s : NavState) (h : widthInv s) :
    widthInv (handleMouseMove x s) := by
  rcases handleMouseMove_cases x s with hc | hc
  · rw [hc]; exact h
  · rw [hc]
    refine ⟨rfl, rfl, fun sb hsb => ?_⟩
    injection hsb with h'
    subst h'
    have hb := clampWidth_bounds x
    simp [sidebarWidthOk]
    omega

/-- The timer callback preserves the width invariant. -/
lemma widthInv_timerFire (s : NavState) (h : widthInv s) :
    widthInv (timerFire s) := by
  rcases timerFire_cases s with hc | ⟨d, rest, _, hc⟩ <;> rw [hc]
  · exact h
  · exact ⟨h.1, h.2.1, h.2.2⟩

/-- The `[isMobile]` effect reestablishes the width invariant from
presence. -/
lemma widthInv_effectOnMobileChange (m : Bool) (s : NavState)
    (hs : s.sidebar.isSome = true) (hn : s.navbar.isSome = true)
    (hm : m = true → s.viewport ≤ 768) :
    widthInv (effectOnMobileChange m s) := by
  cases m with
  | true => exact widthInv_collapse s hs hn
  | false => exact widthInv_resetWidth false s hs hn (by simp)

/-- The `[pathname, isMobile]` effect preserves the width invariant. -/
lemma widthInv_effectOnPathChange (m : Bool) (s : NavState) (h : widthInv s) :
    widthInv (effectOnPathChange m s) := by
  cases m with
  | true => exact widthInv_collapse s h.1 h.2.1
  | false => exact h

/-- Allowed sidebar widths stay allowed when the viewport changes without
flipping the media-query result. -/
lemma sidebarWidthOk_viewport_change {V V' : Nat} {w : CssLen}
    (h : sidebarWidthOk V w)
    (hVV : decide (V' ≤ 768) = decide (V ≤ 768)) :
    sidebarWidthOk V' w := by
  cases w with
  | px n => exact h
  | pct p =>
      obtain ⟨hp, hV⟩ := h
      refine ⟨hp, ?_⟩
      have hd : decide (V' ≤ 768) = true := by
        rw [hVV]; exact decide_eq_true hV
      exact of_decide_eq_true hd
  | calc100SubPx n => exact False.elim h

/-- Every event preserves the width invariant. -/
lemma widthInv_step (s : NavState) (e : Event) (h : widthInv s) :
    widthInv (step s e) := by
  have hmob : s.isMobile = true → s.viewport ≤ 768 := fun hm =>
    of_decide_eq_true hm
  cases e with
  | mouseDown => exact ⟨h.1, h.2.1, h.2.2⟩
  | mouseUp => exact ⟨h.1, h.2.1, h.2.2⟩
  | mouseMove x => exact widthInv_mouseMove x s h
  | clickCollapse => exact widthInv_collapse s h.1 h.2.1
  | clickResetWidth => exact widthInv_resetWidth s.isMobile s h.1 h.2.1 hmob
  | pathChange => exact widthInv_effectOnPathChange s.isMobile s h
  | mount =>
      exact widthInv_effectOnPathChange s.isMobile _
        (widthInv_effectOnMobileChange s.isMobile s h.1 h.2.1 hmob)
  | timeout => exact widthInv_timerFire s h
  | viewportChange v =>
      simp only [step]
      split
      · rename_i hcond
        simp only [NavState.isMobile] at hcond
        exact ⟨h.1, h.2.1, fun sb hsb =>
          sidebarWidthOk_viewport_change (h.2.2 sb hsb) hcond⟩
      · by_cases hv : v ≤ 768
        · have hm : NavState.isMobile { s with viewport := v } = true := by
            simp [NavState.isMobile, hv]
          rw [hm]
          show widthInv (collapse (collapse { s with viewport := v }))
          have h1 : widthInv (collapse { s with viewport := v }) :=
            widthInv_collapse _ h.1 h.2.1
          exact widthInv_collapse _ h1.1 h1.2.1
        · have hm : NavState.isMobile { s with viewport := v } = false := by
            simp [NavState.isMobile, hv]
          rw [hm]
          show widthInv (resetWidth false { s with viewport := v })
          exact widthInv_resetWidth false _ h.1 h.2.1 (by simp)

/-- The initial render satisfies the width invariant. -/
lemma widthInv_init (v : Nat) : widthInv (init v) := by
  refine ⟨rfl, rfl, fun sb hsb => ?_⟩
  by_cases hv : v ≤ 768
  · have hside : (init v).sidebar = some ⟨CssLen.px 0⟩ := by
      simp [init, hv]
    rw [hside] at hsb
    injection hsb with h'
    subst h'
    simp [sidebarWidthOk]
  · have hside : (init v).sidebar = some ⟨CssLen.px 240⟩ := by
      simp [init, hv]
    rw [hside] at hsb
    injection hsb with h'
    subst h'
    simp [sidebarWidthOk]

/-- The width invariant propagates along any run. -/
lemma widthInv_run (evs : List Event) :
    ∀ s : NavState, widthInv s → widthInv (run evs s) := by
  induction evs with
  | nil => exact fun s h => h
  | cons e rest ih =>
      intro s h
      simpa [run, List.foldl] using ih (step s e) (widthInv_step s e h)

/-- Any allowed sidebar width resolves to at least 0 and at most 768 px. -/
lemma sidebarWidthOk_bounds (V : Nat) (w : CssLen) (h : sidebarWidthOk V w) :
    0 ≤ w.toPx (V : Int) ∧ w.toPx (V : Int) ≤ 768 := by
  cases w with
  | px n =>
      have hn : n = 0 ∨ (240 ≤ n ∧ n ≤ 480) := h
      simp only [CssLen.toPx]
      omega
  | pct p =>
      obtain ⟨hp, hV⟩ := h
      subst hp
      simp only [CssLen.toPx]
      have h100 : (V : Int) * ((100 : Nat) : Int) / 100 = (V : Int) := by
        push_cast
        exact Int.mul_ediv_cancel _ (by norm_num)
      rw [h100]
      exact ⟨Int.ofNat_nonneg V, by exact_mod_cast hV⟩
  | calc100SubPx n => exact False.elim h

/-- C5: in every state reachable by any sequence of the component's
operations (drag resize, collapse, expand, responsive switching, route
changes, timer firings) from the initial render at any viewport width, the
sidebar width resolves to a pixel value inside the fixed range [0, 768]. -/
theorem sidebar_width_in_range (v : Nat) (evs : List Event) (sb : SidebarStyle)
    (h : (run evs (init v)).sidebar = some sb) :
    0 ≤ sb.width.toPx ((run evs (init v)).viewport : Int)
    ∧ sb.width.toPx ((run evs (init v)).viewport : Int) ≤ 768 :=
  sidebarWidthOk_bounds _ _ ((widthInv_run evs (init v) (widthInv_init v)).2.2 sb h)

/-- Witness for C5: the initial desktop state after an empty run. -/
theorem sidebar_width_in_range_witness :
    0 ≤ (CssLen.px 240).toPx ((run [] (init 1000)).viewport : Int)
    ∧ (CssLen.px 240).toPx ((run [] (init 1000)).viewport : Int) ≤ 768 :=
  sidebar_width_in_range 1000 [] ⟨CssLen.px 240⟩ rfl
